import Mathlib

/-!
Shallow embedding of the `yamada-san` RSS notifier.

The repository contains two variants of the same AWS Lambda handler
(`src/src/index.ts`, two documents):

* Variant A ("second-latest, gated"): looks at the latest feed item only to
  decide freshness against a 24-hour cutoff, then notifies about the *second*
  item.
* Variant B ("scan all"): iterates every feed item and publishes one message
  per item whose publish date is strictly after the cutoff.

Modelling conventions:

* Instants (`Date` values) are epoch milliseconds as `Int`.
* The JavaScript `new Date(string)` parser is an external capability; handlers
  take a `parse : String → Option Int` argument, `none` standing for `NaN`.
* `Intl.DateTimeFormat` with `timeZone: "Asia/Tokyo"` is modelled as the fixed
  UTC+9 civil calendar (proleptic Gregorian).  Variant A reads the
  *non-literal parts* of one multi-field formatter, which per ECMA-402 are the
  bare field values: `"2-digit"` fields zero-padded, `"numeric"` year
  unpadded, `hour12: false` giving the `h23` hour cycle.  Variant B instead
  concatenates whole single-field `format()` outputs, which carry the ja-JP
  locale pattern literals: year `2024年`, month `03月`, day `15日`, hour
  `14時`, while a lone `"2-digit"` minute resolves to the bare unpadded
  minute skeleton.
* `process.env` is a record of `Option String`; JavaScript string falsiness
  (`!s` true for `undefined` and `""`) is `jsTruthy`.
* The SNS transport is external: handlers take `sendOk : Nat → Bool`, giving
  the outcome of the k-th publish call of the invocation; the published
  messages of a run are the successfully sent ones.
-/

namespace Yamada

/-- One RSS feed item as the handlers consume it (`rss-parser`'s `Item`):
`title`, `link` and `pubDate` are all optional strings. -/
structure RssItem where
  title : Option String
  link : Option String
  pubDate : Option String
deriving DecidableEq, Repr

/-- A message handed to the SNS publish call: subject line and body. -/
structure Publish where
  subject : String
  message : String
deriving DecidableEq, Repr

/-- JavaScript truthiness of an optional string: `undefined` and `""` are
falsy, every other string truthy. -/
def jsTruthy : Option String → Bool
  | none => false
  | some s => !(s == "")

/-- JavaScript `s || fallback` on an optional string. -/
def jsOr (s : Option String) (fallback : String) : String :=
  match s with
  | none => fallback
  | some t => if t == "" then fallback else t

/-- `DEFAULT_REGION` constant of both variants. -/
def DEFAULT_REGION : String := "ap-northeast-1"

/-- Subject line used by both variants for the publish call. -/
def subjectLine : String := "配信予定: 『みいちゃんと山田さん』"

/-- Header line of the composed message (both variants). -/
def headerLine : String := "『みいちゃんと山田さん』が公開されました！"

/-- Year-of-era from day-of-era in the 400-year Gregorian cycle. -/
def yoeOfDoe (doe : Nat) : Nat :=
  (doe - doe / 1460 + doe / 36524 - doe / 146096) / 365

/-- Day-of-year (0-based, March-first year) from day-of-era. -/
def doyOfDoe (doe : Nat) : Nat :=
  doe - (365 * yoeOfDoe doe + yoeOfDoe doe / 4 - yoeOfDoe doe / 100)

/-- March-first month index (0 = March) from day-of-year. -/
def mpOfDoy (doy : Nat) : Nat := (5 * doy + 2) / 153

/-- Days-to-civil-date conversion (proleptic Gregorian), days counted from
1970-01-01.  Returns `(year, month, day)`. -/
def civilFromDays (z0 : Int) : Int × Nat × Nat :=
  let z : Int := z0 + 719468
  let era : Int := z.fdiv 146097
  let doe : Nat := (z - era * 146097).toNat
  let yoe : Nat := yoeOfDoe doe
  let y : Int := (yoe : Int) + era * 400
  let doy : Nat := doyOfDoe doe
  let mp : Nat := mpOfDoy doy
  let d : Nat := doy - (153 * mp + 2) / 5 + 1
  let m : Nat := if mp < 10 then mp + 3 else mp - 9
  (if m ≤ 2 then y + 1 else y, m, d)

/-- Civil fields of an instant in the fixed UTC+9 ("Asia/Tokyo") calendar:
`(year, month, day, hour, minute)`. -/
def jstCivil (t : Int) : Int × Nat × Nat × Nat × Nat :=
  let tj : Int := t + 9 * 60 * 60 * 1000
  let days : Int := tj.fdiv 86400000
  let ms : Nat := (tj - days * 86400000).toNat
  match civilFromDays days with
  | (y, m, d) => (y, m, d, ms / 3600000, ms % 3600000 / 60000)

/-- Zero-padding to two digits, the `"2-digit"` rendering of a field. -/
def pad2 (n : Nat) : String :=
  if n < 10 then "0" ++ toString n else toString n

end Yamada

namespace Yamada.A

open Yamada

/-- `formatJstDateTime` of variant A: one `Intl.DateTimeFormat` with
`formatToParts`, non-literal parts reassembled as
`yyyy/mm/dd hh:min (JST)`.  The `"2-digit"` parts come back zero-padded
(the code's extra `padStart(2, "0")` on hour and minute is then a no-op). -/
def formatJstDateTime (t : Int) : String :=
  match jstCivil t with
  | (y, m, d, hh, mi) =>
    toString y ++ "/" ++ pad2 m ++ "/" ++ pad2 d ++ " " ++
      pad2 hh ++ ":" ++ pad2 mi ++ " (JST)"

/-- The lines of variant A's message body, before `join("\n")`. -/
def buildMessageLines (title : String) (pubDate : Int) (url : String) : List String :=
  [headerLine,
   "",
   "詳細情報",
   "- タイトル: " ++ title,
   "- 配信日: " ++ formatJstDateTime pubDate,
   "- URL: " ++ url]

/-- `buildMessage` of variant A: the six lines joined with `"\n"`. -/
def buildMessage (title : String) (pubDate : Int) (url : String) : String :=
  String.intercalate "\n" (buildMessageLines title pubDate url)

end Yamada.A

namespace Yamada.B

open Yamada

/-- `formatJstDateTime` of variant B: five separate single-field
`Intl.DateTimeFormat("ja-JP", …)` calls (year `"numeric"`, month/day/hour
`"2-digit"` with `hour12: false`, minute `"2-digit"`), whose whole
`format()` strings are concatenated with `/`, `/`, ` `, `:` and ` (JST)`.
A single-field ja-JP `format()` includes the locale pattern literals —
`年`, `月`, `日`, `時` — and a lone `"2-digit"` minute request resolves to
the unpadded bare-minute skeleton, so the result is e.g.
`2024年/03月/15日 14時:30 (JST)`, not `2024/03/15 14:30 (JST)`. -/
def formatJstDateTime (t : Int) : String :=
  let yyyy : String := toString (jstCivil t).1 ++ "年"
  let mm : String := pad2 (jstCivil t).2.1 ++ "月"
  let dd : String := pad2 (jstCivil t).2.2.1 ++ "日"
  let hh : String := pad2 (jstCivil t).2.2.2.1 ++ "時"
  let mn : String := toString (jstCivil t).2.2.2.2
  yyyy ++ "/" ++ mm ++ "/" ++ dd ++ " " ++ hh ++ ":" ++ mn ++ " (JST)"

/-- The lines of variant B's message body: same template as variant A but
with no URL line. -/
def buildMessageLines (title : String) (pubDate : Int) : List String :=
  [headerLine,
   "",
   "詳細情報",
   "- タイトル: " ++ title,
   "- 配信日: " ++ formatJstDateTime pubDate]

/-- `buildMessage` of variant B: the five lines joined with `"\n"`. -/
def buildMessage (title : String) (pubDate : Int) : String :=
  String.intercalate "\n" (buildMessageLines title pubDate)

end Yamada.B

namespace Yamada

/-- The process environment slots the two variants read. -/
structure Env where
  TOPIC_ARN : Option String
  AWS_REGION : Option String
  KEY : Option String
deriving DecidableEq, Repr

/-- `getCutoffDate(hours)` relative to an explicit `now`:
`new Date(Date.now() - hours * 60 * 60 * 1000)`. -/
def getCutoffDate (now : Int) (hours : Int) : Int :=
  now - hours * 60 * 60 * 1000

/-- `requirePubDate` of variant A: `!item.pubDate` (missing or empty) and an
unparseable (`NaN`) date both yield `null`, logged but not fatal. -/
def requirePubDate (parse : String → Option Int) (item : RssItem) : Option Int :=
  match item.pubDate with
  | none => none
  | some s => if s == "" then none else parse s

/-- `getItemDisplay` of variant A: title and link with JavaScript `||`
fallbacks. -/
def getItemDisplay (item : RssItem) : String × String :=
  (jsOr item.title "タイトルなし", jsOr item.link "URLなし")

/-- `sendMessage`: wraps the SNS publish; on failure the error is logged and
re-thrown unchanged. The transport outcome is the argument. -/
def sendMessage (transport : Except String Unit) : Except String Unit :=
  match transport with
  | Except.ok u => Except.ok u
  | Except.error e => Except.error e

end Yamada

namespace Yamada.A

open Yamada

/-- Variant A's `Config`: `topicArn` and `region`. -/
structure Config where
  topicArn : String
  region : String
deriving DecidableEq, Repr

/-- `getConfigFromEnv` of variant A: throws when `TOPIC_ARN` is falsy
(missing or empty); `region` is `AWS_REGION ?? DEFAULT_REGION` (nullish
coalescing: an empty `AWS_REGION` is kept). -/
def getConfigFromEnv (env : Env) : Except String Config :=
  if jsTruthy env.TOPIC_ARN then
    Except.ok ⟨env.TOPIC_ARN.getD "", env.AWS_REGION.getD DEFAULT_REGION⟩
  else
    Except.error "Missing environment variables: TOPIC_ARN"

/-- Variant A's handler after config and fetch: the list of messages the
invocation publishes (empty list models the silent `return` paths; the single
publish is assumed to succeed).  Mirrors `handler` of the first document of
`src/src/index.ts` line by line. -/
def handler (parse : String → Option Int) (now : Int) (items : List RssItem) :
    List Publish :=
  match items with
  | [] => []
  | latestItem :: rest =>
    match requirePubDate parse latestItem with
    | none => []
    | some latestPubDate =>
      let cutoff := getCutoffDate now 24
      if latestPubDate ≤ cutoff then []
      else
        match rest with
        | [] => []
        | secondLatestItem :: _ =>
          match requirePubDate parse secondLatestItem with
          | none => []
          | some secondLatestPubDate =>
            match getItemDisplay secondLatestItem with
            | (title, url) =>
              [⟨subjectLine, buildMessage title secondLatestPubDate url⟩]

/-- Variant A's full invocation: config loading happens before the feed is
consulted, so a config error aborts with no publish regardless of feed
content. -/
def handlerFull (env : Env) (parse : String → Option Int) (now : Int)
    (items : List RssItem) : Except String (List Publish) :=
  match getConfigFromEnv env with
  | Except.error e => Except.error e
  | Except.ok _ => Except.ok (handler parse now items)

end Yamada.A

namespace Yamada.B

open Yamada

/-- Variant B's `Config`: `key`, `topicArn` and `region`. -/
structure Config where
  key : String
  topicArn : String
  region : String
deriving DecidableEq, Repr

/-- `getConfigFromEnv` of variant B: throws when `KEY` or `TOPIC_ARN` is
falsy; `region` as in variant A. -/
def getConfigFromEnv (env : Env) : Except String Config :=
  if jsTruthy env.KEY && jsTruthy env.TOPIC_ARN then
    Except.ok ⟨env.KEY.getD "", env.TOPIC_ARN.getD "", env.AWS_REGION.getD DEFAULT_REGION⟩
  else
    Except.error "Missing environment variables: KEY or TOPIC_ARN"

/-- The message variant B composes and publishes for one qualifying item. -/
def composeFor (parse : String → Option Int) (item : RssItem) : Publish :=
  ⟨subjectLine,
   buildMessage (jsOr item.title "タイトルなし") ((requirePubDate parse item).getD 0)⟩

/-- The loop body of variant B's handler.  `k` counts the publish calls made
so far; `sendOk k` is the outcome of the k-th call.  Returns the successfully
published messages and whether a publish error aborted the loop.  An item
with a missing/empty or unparseable `pubDate` is skipped (`continue`); an
item with `pubDate > yesterday` is composed and published; a failed publish
re-throws, ending the iteration. -/
def loop (parse : String → Option Int) (yesterday : Int) (sendOk : Nat → Bool) :
    List RssItem → Nat → List Publish × Bool
  | [], _ => ([], false)
  | item :: rest, k =>
    match requirePubDate parse item with
    | none => loop parse yesterday sendOk rest k
    | some pubDate =>
      if yesterday < pubDate then
        if sendOk k then
          match loop parse yesterday sendOk rest (k + 1) with
          | (ps, aborted) => (composeFor parse item :: ps, aborted)
        else ([], true)
      else loop parse yesterday sendOk rest k

/-- Variant B's handler after config and fetch: iterates all items,
publishing one message per item strictly newer than `yesterday`
(= now - 24h).  Returns the successfully published messages and whether a
publish failure aborted the invocation. -/
def handler (parse : String → Option Int) (now : Int) (sendOk : Nat → Bool)
    (items : List RssItem) : List Publish × Bool :=
  loop parse (getCutoffDate now 24) sendOk items 0

/-- Variant B's full invocation: config loading precedes the feed fetch and
any publish. -/
def handlerFull (env : Env) (parse : String → Option Int) (now : Int)
    (sendOk : Nat → Bool) (items : List RssItem) :
    Except String (List Publish × Bool) :=
  match getConfigFromEnv env with
  | Except.error e => Except.error e
  | Except.ok _ => Except.ok (handler parse now sendOk items)

end Yamada.B

namespace Yamada

/-- The items of a feed that qualify under variant B: parseable publish date
strictly after the cutoff. -/
def freshItems (parse : String → Option Int) (yesterday : Int)
    (items : List RssItem) : List RssItem :=
  items.filter fun item =>
    match requirePubDate parse item with
    | none => false
    | some pubDate => decide (yesterday < pubDate)

/-- A concrete date parser for worked examples: a tiny table of raw
`pubDate` strings and their epoch-millisecond values; anything else is
unparseable (`NaN`). -/
def parseEx : String → Option Int
  | "A" => some 100
  | "B" => some 90
  | "C" => some 10
  | "D" => some 40
  | "E" => some 30
  | _ => none

end Yamada

namespace Yamada

/-! Arithmetic facts about the UTC+9 civil-calendar conversion. -/

lemma doe_lt_cycle (z : Int) :
    0 ≤ z - z.fdiv 146097 * 146097 ∧ z - z.fdiv 146097 * 146097 < 146097 := by
  have h1 := Int.fmod_add_fdiv z 146097
  have h2 := Int.fmod_lt_of_pos z (b := 146097) (by norm_num)
  have h3 := Int.fmod_nonneg' z (b := 146097) (by norm_num)
  omega

set_option maxHeartbeats 4000000 in
lemma doyOfDoe_le (doe : Nat) (h : doe < 146097) : doyOfDoe doe ≤ 365 := by
  unfold doyOfDoe yoeOfDoe
  set yoe := (doe - doe / 1460 + doe / 36524 - doe / 146096) / 365 with hyoe
  have hub : yoe ≤ 400 := by omega
  interval_cases yoe <;> omega

lemma month_bounds (doy : Nat) (h : doy ≤ 365) :
    1 ≤ (if mpOfDoy doy < 10 then mpOfDoy doy + 3 else mpOfDoy doy - 9) ∧
      (if mpOfDoy doy < 10 then mpOfDoy doy + 3 else mpOfDoy doy - 9) ≤ 12 := by
  unfold mpOfDoy
  split <;> omega

lemma day_bounds (doy : Nat) :
    1 ≤ doy - (153 * mpOfDoy doy + 2) / 5 + 1 ∧
      doy - (153 * mpOfDoy doy + 2) / 5 + 1 ≤ 31 := by
  unfold mpOfDoy
  constructor <;> omega

lemma civilFromDays_bounds (z : Int) :
    1 ≤ (civilFromDays z).2.1 ∧ (civilFromDays z).2.1 ≤ 12 ∧
      1 ≤ (civilFromDays z).2.2 ∧ (civilFromDays z).2.2 ≤ 31 := by
  have hdoe := doe_lt_cycle (z + 719468)
  have hlt : ((z + 719468) - (z + 719468).fdiv 146097 * 146097).toNat < 146097 := by
    omega
  have hdoy := doyOfDoe_le _ hlt
  have hm := month_bounds _ hdoy
  have hd := day_bounds (doyOfDoe (((z + 719468) - (z + 719468).fdiv 146097 * 146097).toNat))
  simp only [civilFromDays]
  exact ⟨hm.1, hm.2, hd.1, hd.2⟩

lemma msOfDay_lt (a : Int) :
    0 ≤ a - a.fdiv 86400000 * 86400000 ∧ a - a.fdiv 86400000 * 86400000 < 86400000 := by
  have h1 := Int.fmod_add_fdiv a 86400000
  have h2 := Int.fmod_lt_of_pos a (b := 86400000) (by norm_num)
  have h3 := Int.fmod_nonneg' a (b := 86400000) (by norm_num)
  omega

lemma jstCivil_bounds (t : Int) :
    1 ≤ (jstCivil t).2.1 ∧ (jstCivil t).2.1 ≤ 12 ∧
      1 ≤ (jstCivil t).2.2.1 ∧ (jstCivil t).2.2.1 ≤ 31 ∧
      (jstCivil t).2.2.2.1 ≤ 23 ∧ (jstCivil t).2.2.2.2 ≤ 59 := by
  have hms := msOfDay_lt (t + 9 * 60 * 60 * 1000)
  have hc := civilFromDays_bounds ((t + 9 * 60 * 60 * 1000).fdiv 86400000)
  rcases hcv : civilFromDays ((t + 9 * 60 * 60 * 1000).fdiv 86400000) with ⟨y, m, d⟩
  rw [hcv] at hc
  simp only [jstCivil, hcv]
  refine ⟨hc.1, hc.2.1, hc.2.2.1, hc.2.2.2, ?_, ?_⟩ <;> omega

/-! Decimal rendering lengths: `"numeric"` fields are unpadded, `"2-digit"`
fields two characters. -/

lemma toDigitsCore_length_lower :
    ∀ (k f n : Nat), 10 ^ k ≤ n → k < f → k + 1 ≤ (Nat.toDigitsCore 10 f n []).length := by
  intro k
  induction k with
  | zero =>
    intro f n hn hf
    obtain ⟨f, rfl⟩ : ∃ g, f = g + 1 := ⟨f - 1, by omega⟩
    by_cases h10 : n / 10 = 0
    · simp [Nat.toDigitsCore, h10]
    · simp only [Nat.toDigitsCore, h10, if_false]
      rw [Nat.toDigitsCore_lens_eq]
      omega
  | succ k ih =>
    intro f n hn hf
    obtain ⟨f, rfl⟩ : ∃ g, f = g + 1 := ⟨f - 1, by omega⟩
    have hp : 0 < 10 ^ k := Nat.pos_pow_of_pos k (by norm_num)
    have hdiv : 10 ^ k ≤ n / 10 := by
      rw [Nat.le_div_iff_mul_le (by norm_num)]
      calc 10 ^ k * 10 = 10 ^ (k + 1) := by ring
        _ ≤ n := hn
    have h10 : ¬(n / 10 = 0) := by omega
    simp only [Nat.toDigitsCore, h10, if_false]
    rw [Nat.toDigitsCore_lens_eq]
    have hih := ih f (n / 10) hdiv (by omega)
    omega

lemma repr_length_lower (k n : Nat) (h : 10 ^ k ≤ n) : k + 1 ≤ (Nat.repr n).length := by
  have hk : k < 10 ^ k := Nat.lt_pow_self (by norm_num) k
  have hf : k < n + 1 := by omega
  have hcore := toDigitsCore_length_lower k (n + 1) n h hf
  simpa [Nat.repr, Nat.toDigits, String.length, List.asString] using hcore

lemma repr_length_eq_of_range (n e : Nat) (he : 0 < e) (h1 : 10 ^ (e - 1) ≤ n)
    (h2 : n < 10 ^ e) : (Nat.repr n).length = e := by
  have hu := Nat.repr_length n e he h2
  have hl := repr_length_lower (e - 1) n h1
  omega

/-- A `"2-digit"` rendering is two characters for any value below 100. -/
lemma pad2_length (n : Nat) (h : n < 100) : (pad2 n).length = 2 := by
  have ht : toString n = Nat.repr n := rfl
  unfold pad2
  by_cases h10 : n < 10
  · rw [if_pos h10, ht, String.length_append]
    rcases Nat.eq_zero_or_pos n with h0 | h0
    · subst h0; rfl
    · have hr := repr_length_eq_of_range n 1 (by norm_num)
        (by simpa [pow_zero] using h0) (by simpa [pow_one] using h10)
      rw [hr]
      rfl
  · rw [if_neg h10, ht]
    refine repr_length_eq_of_range n 2 (by norm_num) ?_ ?_
    · show 10 ^ 1 ≤ n
      simp only [pow_one]
      omega
    · show n < 10 ^ 2
      norm_num
      omega

/-- The `"numeric"` year rendering is four characters for years 1000–9999. -/
lemma year_length_four (y : Int) (h1 : 1000 ≤ y) (h2 : y < 10000) :
    (toString y).length = 4 := by
  obtain ⟨n, rfl⟩ : ∃ n : Nat, y = (n : Int) := ⟨y.toNat, (Int.toNat_of_nonneg (by omega)).symm⟩
  have hn1 : 1000 ≤ n := by omega
  have hn2 : n < 10000 := by omega
  have ht : toString ((n : Int)) = Nat.repr n := rfl
  rw [ht]
  refine repr_length_eq_of_range n 4 (by norm_num) ?_ ?_
  · show 10 ^ 3 ≤ n
    norm_num
    omega
  · show n < 10 ^ 4
    norm_num
    omega

/-- Variant A's rendered string, decomposed into its civil fields. -/
lemma formatJstDateTime_eq (t : Int) (y : Int) (m d hh mi : Nat)
    (hc : jstCivil t = (y, m, d, hh, mi)) :
    A.formatJstDateTime t =
      toString y ++ "/" ++ pad2 m ++ "/" ++ pad2 d ++ " " ++
        pad2 hh ++ ":" ++ pad2 mi ++ " (JST)" := by
  simp only [A.formatJstDateTime, hc]

/-- Variant B's rendered string, decomposed into its civil fields: each
single-field formatter output carries its ja-JP literal affix, and the lone
minute is unpadded. -/
lemma formatJstDateTime_B_eq (t : Int) (y : Int) (m d hh mi : Nat)
    (hc : jstCivil t = (y, m, d, hh, mi)) :
    B.formatJstDateTime t =
      (toString y ++ "年") ++ "/" ++ (pad2 m ++ "月") ++ "/" ++ (pad2 d ++ "日") ++ " " ++
        (pad2 hh ++ "時") ++ ":" ++ toString mi ++ " (JST)" := by
  simp only [B.formatJstDateTime, hc]

/-- A string that continues an initial segment other than `"- URL: "` is not
a URL line: witnessed by one differing character position. -/
lemma append_ne_url (p : String) (i : Nat) (hip : i < p.data.length)
    (hiq : i < "- URL: ".data.length)
    (hne : ¬(p.data[i]? = ("- URL: ".data)[i]?)) :
    ∀ s u : String, ¬(p ++ s = "- URL: " ++ u) := by
  intro s u h
  have h2 : (p.data ++ s.data)[i]? = ("- URL: ".data ++ u.data)[i]? := by
    rw [← String.data_append, ← String.data_append, h]
  rw [List.getElem?_append_left hip, List.getElem?_append_left hiq] at h2
  exact hne h2

/-- A constant line other than `"- URL: "`-prefixed text is not a URL line. -/
lemma const_ne_url (c : String) (i : Nat) (hi : i < "- URL: ".data.length)
    (hne : ¬(c.data[i]? = ("- URL: ".data)[i]?)) :
    ∀ u : String, ¬(c = "- URL: " ++ u) := by
  intro u h
  have h2 : c.data[i]? = ("- URL: ".data ++ u.data)[i]? := by
    rw [← String.data_append, ← h]
  rw [List.getElem?_append_left hi] at h2
  exact hne h2

/-! Behaviour of variant B's publish loop. -/

lemma freshItems_nil (parse : String → Option Int) (yd : Int) :
    freshItems parse yd [] = [] := rfl

lemma freshItems_cons_skip (parse : String → Option Int) (yd : Int)
    (item : RssItem) (rest : List RssItem)
    (hp : requirePubDate parse item = none) :
    freshItems parse yd (item :: rest) = freshItems parse yd rest := by
  simp [freshItems, List.filter_cons, hp]

lemma freshItems_cons_stale (parse : String → Option Int) (yd : Int)
    (item : RssItem) (rest : List RssItem) (p : Int)
    (hp : requirePubDate parse item = some p) (hf : ¬(yd < p)) :
    freshItems parse yd (item :: rest) = freshItems parse yd rest := by
  simp [freshItems, List.filter_cons, hp, hf]

lemma freshItems_cons_fresh (parse : String → Option Int) (yd : Int)
    (item : RssItem) (rest : List RssItem) (p : Int)
    (hp : requirePubDate parse item = some p) (hf : yd < p) :
    freshItems parse yd (item :: rest) = item :: freshItems parse yd rest := by
  simp [freshItems, List.filter_cons, hp, hf]

lemma loop_all_ok (parse : String → Option Int) (yd : Int) :
    ∀ (items : List RssItem) (k : Nat),
      B.loop parse yd (fun _ => true) items k =
        ((freshItems parse yd items).map (B.composeFor parse), false) := by
  intro items
  induction items with
  | nil => intro k; simp [B.loop, freshItems_nil]
  | cons item rest ih =>
    intro k
    rcases hp : requirePubDate parse item with _ | p
    · rw [freshItems_cons_skip parse yd item rest hp]
      simpa [B.loop, hp] using ih k
    · by_cases hf : yd < p
      · rw [freshItems_cons_fresh parse yd item rest p hp hf]
        simp [B.loop, hp, hf, ih (k + 1)]
      · rw [freshItems_cons_stale parse yd item rest p hp hf]
        simpa [B.loop, hp, hf] using ih k

lemma loop_length_le (parse : String → Option Int) (yd : Int) (sendOk : Nat → Bool) :
    ∀ (items : List RssItem) (k : Nat),
      (B.loop parse yd sendOk items k).1.length ≤ (freshItems parse yd items).length := by
  intro items
  induction items with
  | nil => intro k; simp [B.loop, freshItems_nil]
  | cons item rest ih =>
    intro k
    rcases hp : requirePubDate parse item with _ | p
    · rw [freshItems_cons_skip parse yd item rest hp]
      simpa [B.loop, hp] using ih k
    · by_cases hf : yd < p
      · rw [freshItems_cons_fresh parse yd item rest p hp hf]
        by_cases hs : sendOk k
        · rcases hl : B.loop parse yd sendOk rest (k + 1) with ⟨ps, aborted⟩
          have hih := ih (k + 1)
          rw [hl] at hih
          simp only [List.length] at hih ⊢
          simp [B.loop, hp, hf, hs, hl]
          omega
        · have hs' : sendOk k = false := by simpa using hs
          simp [B.loop, hp, hf, hs']
      · rw [freshItems_cons_stale parse yd item rest p hp hf]
        simpa [B.loop, hp, hf] using ih k

lemma loop_stale (parse : String → Option Int) (yd : Int) (sendOk : Nat → Bool) :
    ∀ (items : List RssItem) (k : Nat),
      (∀ i ∈ items, ∀ t, requirePubDate parse i = some t → t ≤ yd) →
      B.loop parse yd sendOk items k = ([], false) := by
  intro items
  induction items with
  | nil => intro k _; simp [B.loop]
  | cons item rest ih =>
    intro k h
    have hrest : ∀ i ∈ rest, ∀ t, requirePubDate parse i = some t → t ≤ yd :=
      fun i hi => h i (List.mem_cons_of_mem _ hi)
    rcases hp : requirePubDate parse item with _ | p
    · simpa [B.loop, hp] using ih k hrest
    · have hs : p ≤ yd := h item (List.mem_cons_self _ _) p hp
      have hns : ¬(yd < p) := by omega
      simpa [B.loop, hp, hns] using ih k hrest

lemma loop_first_fail (parse : String → Option Int) (yd : Int) (sendOk : Nat → Bool) :
    ∀ (items : List RssItem) (j k : Nat),
      (∀ i, i < j → sendOk (k + i) = true) → sendOk (k + j) = false →
      j < (freshItems parse yd items).length →
      B.loop parse yd sendOk items k =
        (((freshItems parse yd items).take j).map (B.composeFor parse), true) := by
  intro items
  induction items with
  | nil => intro j k h1 h2 h3; simp [freshItems_nil] at h3
  | cons item rest ih =>
    intro j k h1 h2 h3
    rcases hp : requirePubDate parse item with _ | p
    · rw [freshItems_cons_skip parse yd item rest hp] at h3 ⊢
      simpa [B.loop, hp] using ih j k h1 h2 h3
    · by_cases hf : yd < p
      · rw [freshItems_cons_fresh parse yd item rest p hp hf] at h3 ⊢
        cases j with
        | zero =>
          have hs : sendOk k = false := by simpa using h2
          simp [B.loop, hp, hf, hs]
        | succ j' =>
          have hs : sendOk k = true := by simpa using h1 0 (by omega)
          have h1' : ∀ i, i < j' → sendOk (k + 1 + i) = true := by
            intro i hi
            have hx := h1 (i + 1) (by omega)
            have he : k + (i + 1) = k + 1 + i := by omega
            rwa [he] at hx
          have h2' : sendOk (k + 1 + j') = false := by
            have he : k + (j' + 1) = k + 1 + j' := by omega
            rwa [he] at h2
          have h3' : j' < (freshItems parse yd rest).length := by
            simp only [List.length_cons] at h3
            omega
          have hrec := ih j' (k + 1) h1' h2' h3'
          simp [B.loop, hp, hf, hs, hrec, List.take_succ_cons]
      · rw [freshItems_cons_stale parse yd item rest p hp hf] at h3 ⊢
        simpa [B.loop, hp, hf] using ih j k h1 h2 h3

/-! Variant A's handler shape. -/

lemma handlerA_length_le_one (parse : String → Option Int) (now : Int)
    (items : List RssItem) : (A.handler parse now items).length ≤ 1 := by
  rcases items with _ | ⟨i0, rest⟩
  · simp [A.handler]
  · rcases hp : requirePubDate parse i0 with _ | t0
    · simp [A.handler, hp]
    · by_cases hle : t0 ≤ getCutoffDate now 24
      · simp [A.handler, hp, hle]
      · rcases rest with _ | ⟨i1, rest'⟩
        · simp [A.handler, hp, hle]
        · rcases hp1 : requirePubDate parse i1 with _ | t1
          · simp [A.handler, hp, hle, hp1]
          · simp [A.handler, hp, hle, hp1, getItemDisplay]

/-- JavaScript truthiness, unfolded to the two falsy cases. -/
lemma jsTruthy_iff (s : Option String) :
    jsTruthy s = true ↔ ¬(s = none ∨ s = some "") := by
  rcases s with _ | t
  · simp [jsTruthy]
  · simp [jsTruthy]

/-- The `||` fallback never yields the empty string when the fallback text is
non-empty. -/
lemma jsOr_ne_empty (s : Option String) (fallback : String)
    (hf : fallback ≠ "") : jsOr s fallback ≠ "" := by
  rcases s with _ | t
  · simpa [jsOr] using hf
  · by_cases he : t = ""
    · simpa [jsOr, he] using hf
    · simp [jsOr, he]

end Yamada

namespace Yamada

/-- C1: Policy A selector (first handler variant): for every entry sequence of
length ≥ 2 whose first (latest) entry has a parseable publish timestamp
strictly after the cutoff (now minus 24 hours) and whose second entry has a
parseable publish timestamp, the handler selects the second entry and
composes/publishes exactly one message for it, regardless of whether the
second entry's own timestamp is after the cutoff. -/
theorem policyA_selects_second_entry (parse : String → Option Int)
    (now t0 t1 : Int) (i0 i1 : RssItem) (rest : List RssItem)
    (h0 : requirePubDate parse i0 = some t0)
    (hfresh : getCutoffDate now 24 < t0)
    (h1 : requirePubDate parse i1 = some t1) :
    A.handler parse now (i0 :: i1 :: rest) =
      [⟨subjectLine, A.buildMessage (getItemDisplay i1).1 t1 (getItemDisplay i1).2⟩] := by
  have hn : ¬(t0 ≤ getCutoffDate now 24) := by omega
  simp [A.handler, h0, h1, hn, getItemDisplay]

/-- C1 witness: two entries, the latest fresh ("A" ↦ 100 > cutoff 50), the
second parseable but stale ("C" ↦ 10 ≤ 50): the second is still selected. -/
theorem policyA_selects_second_entry_witness :
    A.handler parseEx 86400050
        [⟨some "Ep2", some "u1", some "A"⟩, ⟨some "Ep1", some "u2", some "C"⟩] =
      [⟨subjectLine, A.buildMessage "Ep1" 10 "u2"⟩] :=
  policyA_selects_second_entry parseEx 86400050 100 10
    ⟨some "Ep2", some "u1", some "A"⟩ ⟨some "Ep1", some "u2", some "C"⟩ []
    (by decide) (by decide) (by decide)

/-- C2 counterexample: under the second (Policy B) variant a feed with two
qualifying entries publishes two messages in one invocation, so "at most one
NotificationMessage per invocation under both handler variants" is false. -/
theorem policyB_two_messages_counterexample :
    ((B.handler parseEx 86400050 (fun _ => true)
        [⟨some "Ep2", some "u1", some "A"⟩, ⟨some "Ep1", some "u2", some "B"⟩]).1).length = 2 ∧
    ¬(((B.handler parseEx 86400050 (fun _ => true)
        [⟨some "Ep2", some "u1", some "A"⟩, ⟨some "Ep1", some "u2", some "B"⟩]).1).length ≤ 1) := by
  constructor <;> decide

/-- C2 amended: the Policy A variant publishes at most one message per
invocation; the Policy B variant publishes at most one message per qualifying
(fresh) entry, so a single invocation may publish several. -/
theorem at_most_one_message_per_policy (parse : String → Option Int)
    (now : Int) (sendOk : Nat → Bool) (items : List RssItem) :
    (A.handler parse now items).length ≤ 1 ∧
    (B.handler parse now sendOk items).1.length ≤
      (freshItems parse (getCutoffDate now 24) items).length :=
  ⟨handlerA_length_le_one parse now items,
   loop_length_le parse (getCutoffDate now 24) sendOk items 0⟩

/-- C3 counterexample: the claim fails in both variants.  Variant B already
fails at the claim's own example instant 2024-03-15T05:30:00Z: its
single-field ja-JP formatters emit `2024年/03月/15日 14時:30 (JST)`, not the
claimed `2024/03/15 14:30 (JST)`.  And variant A fails at the instant
-30641760000000 ms, whose UTC+9 year 999 renders as three characters, not a
4-digit year. -/
theorem formatJst_year_width_counterexample :
    B.formatJstDateTime 1710480600000 = "2024年/03月/15日 14時:30 (JST)" ∧
    ¬(B.formatJstDateTime 1710480600000 = "2024/03/15 14:30 (JST)") ∧
    A.formatJstDateTime (-30641760000000) = "999/01/01 09:00 (JST)" ∧
    (jstCivil (-30641760000000)).1 = 999 ∧
    ¬((toString (jstCivil (-30641760000000)).1).length = 4) := by
  refine ⟨by decide, by decide, by decide, by decide, by decide⟩

/-- C3 amended: for every instant whose UTC+9 year has four digits
(1000–9999), variant A's `formatJstDateTime` renders the instant's fixed
UTC+9 civil fields as the exact string `YYYY/MM/DD HH:MM (JST)`: unpadded
4-character year, zero-padded 2-character month, day, hour (24-hour clock)
and minute, with month in 1–12, day in 1–31, hour ≤ 23 and minute ≤ 59;
both variants are pure functions of the instant alone, so the rendering is
deterministic and independent of the execution environment.  Variant B,
whose single-field ja-JP formatters keep their locale pattern literals and
leave the lone minute unpadded, instead renders the same civil fields as
`YYYY年/MM月/DD日 HH時:M… (JST)` — not the claimed shape.  In particular
2024-03-15T05:30:00Z renders as `2024/03/15 14:30 (JST)` under variant A
only (see witness). -/
theorem formatJst_renders_fixed_utc9 (t : Int) (y : Int) (m d hh mi : Nat)
    (hc : jstCivil t = (y, m, d, hh, mi)) (hy1 : 1000 ≤ y) (hy2 : y < 10000) :
    A.formatJstDateTime t =
      toString y ++ "/" ++ pad2 m ++ "/" ++ pad2 d ++ " " ++
        pad2 hh ++ ":" ++ pad2 mi ++ " (JST)" ∧
    (toString y).length = 4 ∧ (pad2 m).length = 2 ∧ (pad2 d).length = 2 ∧
    (pad2 hh).length = 2 ∧ (pad2 mi).length = 2 ∧
    1 ≤ m ∧ m ≤ 12 ∧ 1 ≤ d ∧ d ≤ 31 ∧ hh ≤ 23 ∧ mi ≤ 59 ∧
    B.formatJstDateTime t =
      (toString y ++ "年") ++ "/" ++ (pad2 m ++ "月") ++ "/" ++ (pad2 d ++ "日") ++ " " ++
        (pad2 hh ++ "時") ++ ":" ++ toString mi ++ " (JST)" := by
  have hb := jstCivil_bounds t
  rw [hc] at hb
  simp only at hb
  obtain ⟨hm1, hm2, hd1, hd2, hhh, hmi⟩ := hb
  exact ⟨formatJstDateTime_eq t y m d hh mi hc, year_length_four y hy1 hy2,
    pad2_length m (by omega), pad2_length d (by omega), pad2_length hh (by omega),
    pad2_length mi (by omega), hm1, hm2, hd1, hd2, hhh, hmi,
    formatJstDateTime_B_eq t y m d hh mi hc⟩

/-- C3 witness: the fixed instant 2024-03-15T05:30:00Z (epoch ms
1710480600000) renders as `2024/03/15 14:30 (JST)` under variant A, while
variant B renders it as `2024年/03月/15日 14時:30 (JST)`. -/
theorem formatJst_renders_fixed_utc9_witness :
    A.formatJstDateTime 1710480600000 = "2024/03/15 14:30 (JST)" ∧
    B.formatJstDateTime 1710480600000 = "2024年/03月/15日 14時:30 (JST)" := by
  have h := formatJst_renders_fixed_utc9 1710480600000 2024 3 15 14 30
    (by decide) (by decide) (by decide)
  obtain ⟨h1, -, -, -, -, -, -, -, -, -, -, -, hB⟩ := h
  exact ⟨h1.trans (by decide), hB.trans (by decide)⟩

/-- C4: Policy B handler (second variant): for every feed, each entry whose
parseable publish timestamp is strictly after the cutoff yields exactly one
composed-and-published message (in feed order), every entry whose timestamp
is missing or unparseable is skipped silently without aborting the
iteration, and multiple messages may be published in one invocation. -/
theorem policyB_one_message_per_fresh_entry (parse : String → Option Int)
    (now : Int) (items : List RssItem) :
    B.handler parse now (fun _ => true) items =
      ((freshItems parse (getCutoffDate now 24) items).map (B.composeFor parse), false) :=
  loop_all_ok parse (getCutoffDate now 24) items 0

/-- C5: if the latest entry's publish timestamp is not strictly after the
cutoff, the Policy A handler publishes nothing; and when every entry's
parseable timestamp is at or before the cutoff, neither variant publishes
anything. -/
theorem stale_feed_publishes_nothing (parse : String → Option Int) (now : Int) :
    (∀ (i0 : RssItem) (rest : List RssItem) (t0 : Int),
        requirePubDate parse i0 = some t0 → t0 ≤ getCutoffDate now 24 →
        A.handler parse now (i0 :: rest) = []) ∧
    (∀ (items : List RssItem) (sendOk : Nat → Bool),
        (∀ i ∈ items, ∀ t, requirePubDate parse i = some t → t ≤ getCutoffDate now 24) →
        A.handler parse now items = [] ∧ (B.handler parse now sendOk items).1 = []) := by
  have hA : ∀ (i0 : RssItem) (rest : List RssItem) (t0 : Int),
      requirePubDate parse i0 = some t0 → t0 ≤ getCutoffDate now 24 →
      A.handler parse now (i0 :: rest) = [] := by
    intro i0 rest t0 h0 hle
    simp [A.handler, h0, hle]
  refine ⟨hA, ?_⟩
  intro items sendOk hall
  constructor
  · rcases items with _ | ⟨i0, rest⟩
    · simp [A.handler]
    · rcases hp : requirePubDate parse i0 with _ | t0
      · simp [A.handler, hp]
      · exact hA i0 rest t0 hp (hall i0 (List.mem_cons_self _ _) t0 hp)
  · have := loop_stale parse (getCutoffDate now 24) sendOk items 0 hall
    simp [B.handler, this]

/-- C5 witness: two entries both older than the cutoff ("D" ↦ 40, "E" ↦ 30,
cutoff 50): no notification under either policy. -/
theorem stale_feed_publishes_nothing_witness :
    A.handler parseEx 86400050
        [⟨some "Ep2", some "u1", some "D"⟩, ⟨some "Ep1", some "u2", some "E"⟩] = [] ∧
    (B.handler parseEx 86400050 (fun _ => true)
        [⟨some "Ep2", some "u1", some "D"⟩, ⟨some "Ep1", some "u2", some "E"⟩]).1 = [] :=
  (stale_feed_publishes_nothing parseEx 86400050).2
    [⟨some "Ep2", some "u1", some "D"⟩, ⟨some "Ep1", some "u2", some "E"⟩]
    (fun _ => true)
    (by
      intro i hi t ht
      fin_cases hi <;>
        · simp [requirePubDate, parseEx] at ht
          simp [getCutoffDate]
          omega)

/-- C6: Policy A handler: an entry sequence with fewer than two entries
publishes nothing, even when its (single) latest entry's parseable timestamp
is strictly after the cutoff. -/
theorem policyA_short_feed_publishes_nothing (parse : String → Option Int)
    (now : Int) (items : List RssItem) (i0 : RssItem) (t0 : Int)
    (hlen : items.length < 2) (hhead : items.head? = some i0)
    (h0 : requirePubDate parse i0 = some t0)
    (hfresh : getCutoffDate now 24 < t0) :
    A.handler parse now items = [] := by
  rcases items with _ | ⟨a, rest⟩
  · simp at hhead
  · obtain rfl : a = i0 := by simpa using hhead
    rcases rest with _ | ⟨b, rest'⟩
    · have hn : ¬(t0 ≤ getCutoffDate now 24) := by omega
      simp [A.handler, h0, hn]
    · simp only [List.length_cons] at hlen
      omega

/-- C6 witness: a single entry newer than the cutoff ("A" ↦ 100 > 50):
no notification. -/
theorem policyA_short_feed_publishes_nothing_witness :
    A.handler parseEx 86400050 [⟨some "Ep2", some "u1", some "A"⟩] = [] :=
  policyA_short_feed_publishes_nothing parseEx 86400050
    [⟨some "Ep2", some "u1", some "A"⟩] ⟨some "Ep2", some "u1", some "A"⟩ 100
    (by decide) (by decide) (by decide) (by decide)

/-- C7: composer fallback: an absent title yields the fixed placeholder
`タイトルなし`; an absent URL yields the fixed placeholder `URLなし` in the
variant with a URL line (A, whose sixth and last line is the URL line built
from the display URL); and variant B's five message lines contain no URL
line at all — no line of them is `"- URL: "` followed by anything. -/
theorem composer_placeholder_fallbacks :
    (∀ item : RssItem, item.title = none → (getItemDisplay item).1 = "タイトルなし") ∧
    (∀ item : RssItem, item.link = none → (getItemDisplay item).2 = "URLなし") ∧
    (∀ (title : String) (t : Int) (url : String),
        (A.buildMessageLines title t url).length = 6 ∧
        (A.buildMessageLines title t url)[5]? = some ("- URL: " ++ url)) ∧
    (∀ (title : String) (t : Int),
        (B.buildMessageLines title t).length = 5 ∧
        ∀ l ∈ B.buildMessageLines title t, ∀ u : String, ¬(l = "- URL: " ++ u)) := by
  refine ⟨?_, ?_, ?_, ?_⟩
  · intro item h; simp [getItemDisplay, jsOr, h]
  · intro item h; simp [getItemDisplay, jsOr, h]
  · intro title t url
    exact ⟨rfl, rfl⟩
  · intro title t
    refine ⟨rfl, ?_⟩
    intro l hl u
    simp only [B.buildMessageLines, List.mem_cons, List.mem_singleton,
      List.not_mem_nil, or_false] at hl
    rcases hl with rfl | rfl | rfl | rfl | rfl
    · exact const_ne_url headerLine 0 (by decide) (by decide) u
    · exact const_ne_url "" 0 (by decide) (by decide) u
    · exact const_ne_url "詳細情報" 0 (by decide) (by decide) u
    · exact append_ne_url "- タイトル: " 2 (by decide) (by decide) (by decide) title u
    · exact append_ne_url "- 配信日: " 2 (by decide) (by decide) (by decide)
        (B.formatJstDateTime t) u

/-- C7 witness: an item with no title and no link gets both placeholders;
variant A's last line is the URL line with the placeholder URL; variant B's
message has five lines and its date line is not a URL line. -/
theorem composer_placeholder_fallbacks_witness :
    (getItemDisplay ⟨none, none, none⟩).1 = "タイトルなし" ∧
    (getItemDisplay ⟨none, none, none⟩).2 = "URLなし" ∧
    (A.buildMessageLines "t" 0 "URLなし")[5]? = some ("- URL: " ++ "URLなし") ∧
    (B.buildMessageLines "t" 0).length = 5 ∧
    ¬("- 配信日: " ++ B.formatJstDateTime 0 = "- URL: " ++ "URLなし") :=
  ⟨composer_placeholder_fallbacks.1 ⟨none, none, none⟩ rfl,
   composer_placeholder_fallbacks.2.1 ⟨none, none, none⟩ rfl,
   (composer_placeholder_fallbacks.2.2.1 "t" 0 "URLなし").2,
   (composer_placeholder_fallbacks.2.2.2 "t" 0).1,
   (composer_placeholder_fallbacks.2.2.2 "t" 0).2
     ("- 配信日: " ++ B.formatJstDateTime 0) (by decide) "URLなし"⟩

/-- C8 counterexample: with `TOPIC_ARN` present but equal to the empty
string — present, hence not absent — variant A's `getConfigFromEnv` still
throws, so "throws if and only if a required environment value is absent"
is false. -/
theorem getConfigFromEnv_empty_string_counterexample :
    A.getConfigFromEnv ⟨some "", none, none⟩ =
      Except.error "Missing environment variables: TOPIC_ARN" ∧
    ¬((some "" : Option String) = none) :=
  ⟨rfl, by decide⟩

/-- C8 amended: `getConfigFromEnv` throws if and only if a required
environment value is absent or the empty string (JavaScript falsiness) —
`TOPIC_ARN` in variant A, `KEY` or `TOPIC_ARN` in variant B; on success the
region is the fixed default `ap-northeast-1` when `AWS_REGION` is absent and
`AWS_REGION`'s value otherwise; and a config error makes the whole
invocation fail before any feed or publish effect, for every feed content. -/
theorem getConfigFromEnv_fail_fast (env : Env) :
    ((∃ c, A.getConfigFromEnv env = Except.ok c) ↔
      ¬(env.TOPIC_ARN = none ∨ env.TOPIC_ARN = some "")) ∧
    ((∃ c, B.getConfigFromEnv env = Except.ok c) ↔
      (¬(env.KEY = none ∨ env.KEY = some "") ∧
        ¬(env.TOPIC_ARN = none ∨ env.TOPIC_ARN = some ""))) ∧
    (∀ c, A.getConfigFromEnv env = Except.ok c →
      (env.AWS_REGION = none → c.region = DEFAULT_REGION) ∧
        (∀ r, env.AWS_REGION = some r → c.region = r)) ∧
    (∀ c, B.getConfigFromEnv env = Except.ok c →
      (env.AWS_REGION = none → c.region = DEFAULT_REGION) ∧
        (∀ r, env.AWS_REGION = some r → c.region = r)) ∧
    (∀ e, A.getConfigFromEnv env = Except.error e →
      ∀ (parse : String → Option Int) (now : Int) (items : List RssItem),
        A.handlerFull env parse now items = Except.error e) ∧
    (∀ e, B.getConfigFromEnv env = Except.error e →
      ∀ (parse : String → Option Int) (now : Int) (sendOk : Nat → Bool)
        (items : List RssItem),
        B.handlerFull env parse now sendOk items = Except.error e) := by
  refine ⟨?_, ?_, ?_, ?_, ?_, ?_⟩
  · by_cases h : jsTruthy env.TOPIC_ARN
    · rw [← jsTruthy_iff]
      simp [A.getConfigFromEnv, h]
    · rw [← jsTruthy_iff]
      simp [A.getConfigFromEnv, h]
  · rw [← jsTruthy_iff, ← jsTruthy_iff]
    by_cases hk : jsTruthy env.KEY <;> by_cases ht : jsTruthy env.TOPIC_ARN <;>
      simp [B.getConfigFromEnv, hk, ht]
  · intro c hc
    by_cases h : jsTruthy env.TOPIC_ARN
    · simp only [A.getConfigFromEnv, if_pos h, Except.ok.injEq] at hc
      subst hc
      rcases hr : env.AWS_REGION with _ | r <;> simp [hr]
    · simp [A.getConfigFromEnv, if_neg h] at hc
  · intro c hc
    by_cases hk : jsTruthy env.KEY <;> by_cases ht : jsTruthy env.TOPIC_ARN <;>
      simp only [B.getConfigFromEnv, hk, ht, Bool.true_and, Bool.false_and,
        if_true, if_false, Except.ok.injEq, reduceCtorEq] at hc
    subst hc
    rcases hr : env.AWS_REGION with _ | r <;> simp [hr]
  · intro e he parse now items
    simp [A.handlerFull, he]
  · intro e he parse now sendOk items
    simp [B.handlerFull, he]

/-- C8 witness: a populated environment loads a config whose region is the
`AWS_REGION` value, and a fully empty environment aborts the whole variant-A
invocation with the config error before any feed is consulted. -/
theorem getConfigFromEnv_fail_fast_witness :
    (∀ r, (⟨some "arn", some "us-east-1", none⟩ : Env).AWS_REGION = some r →
      (A.Config.mk "arn" "us-east-1").region = r) ∧
    A.handlerFull ⟨none, none, none⟩ parseEx 0 [] =
      Except.error "Missing environment variables: TOPIC_ARN" :=
  ⟨((getConfigFromEnv_fail_fast ⟨some "arn", some "us-east-1", none⟩).2.2.1
      (A.Config.mk "arn" "us-east-1") rfl).2,
   (getConfigFromEnv_fail_fast ⟨none, none, none⟩).2.2.2.2.1
      "Missing environment variables: TOPIC_ARN" rfl parseEx 0 []⟩

/-- C9: `sendMessage` re-raises a transport error unchanged, and under the
Policy B variant a publish failure at the j-th publish call aborts the
iteration: exactly the first j qualifying entries' messages are published
and none for any later entry. -/
theorem publish_failure_rethrows_and_aborts (parse : String → Option Int)
    (now : Int) (sendOk : Nat → Bool) (items : List RssItem) (j : Nat)
    (h1 : ∀ i, i < j → sendOk i = true) (h2 : sendOk j = false)
    (h3 : j < (freshItems parse (getCutoffDate now 24) items).length) :
    (∀ e : String, sendMessage (Except.error e) = Except.error e) ∧
    B.handler parse now sendOk items =
      (((freshItems parse (getCutoffDate now 24) items).take j).map
        (B.composeFor parse), true) := by
  refine ⟨fun e => rfl, ?_⟩
  have hx := loop_first_fail parse (getCutoffDate now 24) sendOk items j 0
    (by simpa using h1) (by simpa using h2) h3
  simpa [B.handler] using hx

/-- C9 witness: two fresh entries, the first publish succeeds and the second
fails: only the first message is published and the invocation aborts. -/
theorem publish_failure_rethrows_and_aborts_witness :
    B.handler parseEx 86400050 (fun k => k == 0)
        [⟨some "Ep2", some "u1", some "A"⟩, ⟨some "Ep1", some "u2", some "B"⟩] =
      ([⟨subjectLine, B.buildMessage "Ep2" 100⟩], true) ∧
    sendMessage (Except.error "boom") = Except.error "boom" := by
  have h := publish_failure_rethrows_and_aborts parseEx 86400050 (fun k => k == 0)
    [⟨some "Ep2", some "u1", some "A"⟩, ⟨some "Ep1", some "u2", some "B"⟩] 1
    (by
      intro i hi
      have hz : i = 0 := by omega
      subst hz
      rfl)
    (by rfl) (by decide)
  exact ⟨h.2.trans (by decide), h.1 "boom"⟩

/-- C10 (implicit): an empty-string title or link is treated exactly like an
absent one — the fixed placeholder is substituted whenever the field is
falsy — and consequently a selected entry's display title and URL are never
the empty string; variant B's composer falls back the same way on an
empty-string title. -/
theorem empty_string_fields_fall_back :
    (∀ item : RssItem, (item.title = none ∨ item.title = some "") →
        (getItemDisplay item).1 = "タイトルなし") ∧
    (∀ item : RssItem, (item.link = none ∨ item.link = some "") →
        (getItemDisplay item).2 = "URLなし") ∧
    (∀ item : RssItem, (getItemDisplay item).1 ≠ "" ∧ (getItemDisplay item).2 ≠ "") ∧
    (∀ (parse : String → Option Int) (item : RssItem), item.title = some "" →
        B.composeFor parse item =
          ⟨subjectLine, B.buildMessage "タイトルなし"
            ((requirePubDate parse item).getD 0)⟩) := by
  refine ⟨?_, ?_, ?_, ?_⟩
  · intro item h
    rcases h with h | h <;> simp [getItemDisplay, jsOr, h]
  · intro item h
    rcases h with h | h <;> simp [getItemDisplay, jsOr, h]
  · intro item
    exact ⟨jsOr_ne_empty item.title "タイトルなし" (by decide),
      jsOr_ne_empty item.link "URLなし" (by decide)⟩
  · intro parse item h
    simp [B.composeFor, jsOr, h]

/-- C10 witness: an item whose title and link are empty strings displays both
placeholders (hence non-empty), and variant B composes with the placeholder
title. -/
theorem empty_string_fields_fall_back_witness :
    (getItemDisplay ⟨some "", some "", none⟩).1 = "タイトルなし" ∧
    (getItemDisplay ⟨some "", some "", none⟩).2 = "URLなし" ∧
    (getItemDisplay ⟨some "", some "", none⟩).1 ≠ "" ∧
    B.composeFor parseEx ⟨some "", none, none⟩ =
      ⟨subjectLine, B.buildMessage "タイトルなし" 0⟩ :=
  ⟨empty_string_fields_fall_back.1 ⟨some "", some "", none⟩ (Or.inr rfl),
   empty_string_fields_fall_back.2.1 ⟨some "", some "", none⟩ (Or.inr rfl),
   (empty_string_fields_fall_back.2.2.1 ⟨some "", some "", none⟩).1,
   (empty_string_fields_fall_back.2.2.2 parseEx ⟨some "", none, none⟩ rfl).trans
     (by decide)⟩

end Yamada
